import Mathlib

/-
Shallow embedding of the nanokvm-redfish hardware-control core (src/main.go).

File-system access is modelled by a read oracle `fs : String → Option String`
(none = the underlying read fails) and, for the two writes a pulse performs,
by two success flags `ok1 ok2 : Bool` (whether the first and the second
write to the GPIO line succeed).  GPIO side effects are recorded as an
explicit event trace.
-/

/-- Hardware profile: GPIO line paths for one hardware variant
(struct Hardware, main.go). -/
structure Hardware where
  Version : String
  GPIOReset : String
  GPIOPower : String
  GPIOPowerLED : String
  GPIOHDDLed : String
deriving DecidableEq

/-- HWAlpha constant (main.go). -/
def HWAlpha : Hardware :=
  { Version := "alpha"
    GPIOReset := "/sys/class/gpio/gpio507/value"
    GPIOPower := "/sys/class/gpio/gpio503/value"
    GPIOPowerLED := "/sys/class/gpio/gpio504/value"
    GPIOHDDLed := "/sys/class/gpio/gpio505/value" }

/-- HWBeta constant (main.go). -/
def HWBeta : Hardware :=
  { Version := "beta"
    GPIOReset := "/sys/class/gpio/gpio505/value"
    GPIOPower := "/sys/class/gpio/gpio503/value"
    GPIOPowerLED := "/sys/class/gpio/gpio504/value"
    GPIOHDDLed := "" }

/-- HWPcie constant (main.go). -/
def HWPcie : Hardware :=
  { Version := "pcie"
    GPIOReset := "/sys/class/gpio/gpio505/value"
    GPIOPower := "/sys/class/gpio/gpio503/value"
    GPIOPowerLED := "/sys/class/gpio/gpio504/value"
    GPIOHDDLed := "" }

/-- Boot configuration record (struct Boot, main.go). -/
structure Boot where
  BootSourceOverrideEnabled : String
  BootSourceOverrideMode : String
  BootSourceOverrideTarget : String
  BootSourceOverrideTargetAllowableValues : List String
deriving DecidableEq

/-- Initial value of the mutable global currentBootConfig (main.go). -/
def currentBootConfig : Boot :=
  { BootSourceOverrideEnabled := "Disabled"
    BootSourceOverrideMode := "UEFI"
    BootSourceOverrideTarget := "None"
    BootSourceOverrideTargetAllowableValues :=
      ["None", "Pxe", "Cd", "Usb", "Hdd", "BiosSetup",
       "Utilities", "Diags", "UefiShell", "UefiTarget",
       "SDCard", "UefiHttp", "RemoteDrive", "UefiBootNext"] }

/-- The whitespace class of strings.TrimSpace (ASCII space characters and
the Latin-1 NEL and NBSP). -/
def isSpace (c : Char) : Bool :=
  c == ' ' || c == '\t' || c == '\n' || c == '\x0b' || c == '\x0c' || c == '\r' ||
    c.toNat == 0x85 || c.toNat == 0xA0

/-- strings.TrimSpace: drop leading and trailing whitespace. -/
def trimSpace (s : String) : String :=
  String.mk (((s.data.dropWhile isSpace).reverse.dropWhile isSpace).reverse)

/-- Decimal digit run to a number; none when empty or a non-digit occurs. -/
def digitsToNat (cs : List Char) : Option Nat :=
  if cs.isEmpty then none
  else cs.foldl
    (fun acc c => acc.bind fun n => if c.isDigit then some (10 * n + (c.toNat - 48)) else none)
    (some 0)

/-- strconv.Atoi: an optional sign followed by decimal digits. -/
def atoi (s : String) : Option Int :=
  match s.data with
  | '-' :: rest => (digitsToNat rest).map fun n => -(n : Int)
  | '+' :: rest => (digitsToNat rest).map fun n => (n : Int)
  | cs => (digitsToNat cs).map fun n => (n : Int)

/-- Hardware-detection errors: the read of the config file failed
(fmt wrap of the os.ReadFile error) or the trimmed content matched no tag. -/
inductive DetectErr where
  | ConfigUnreadable
  | UnknownHardware (version : String)
deriving DecidableEq

/-- GPIO driver errors: empty path, failed underlying read or write,
unparseable line content (main.go error strings). -/
inductive GPIOErr where
  | CapabilityAbsent
  | IOError
  | MalformedValue
deriving DecidableEq

/-- detectHardwareFromFile (main.go): read the config source, trim
whitespace, switch case-sensitively on the three variant tags. -/
def detectHardwareFromFile (content : Option String) : Except DetectErr Hardware :=
  match content with
  | none => Except.error DetectErr.ConfigUnreadable
  | some c =>
    let version := trimSpace c
    if version = "alpha" then Except.ok HWAlpha
    else if version = "beta" then Except.ok HWBeta
    else if version = "pcie" then Except.ok HWPcie
    else Except.error (DetectErr.UnknownHardware version)

/-- readGPIO (main.go): empty path is a distinct error; otherwise read the
file, trim and parse an integer. -/
def readGPIO (fs : String → Option String) (path : String) : Except GPIOErr Int :=
  if path = "" then Except.error GPIOErr.CapabilityAbsent
  else
    match fs path with
    | none => Except.error GPIOErr.IOError
    | some content =>
      match atoi (trimSpace content) with
      | none => Except.error GPIOErr.MalformedValue
      | some value => Except.ok value

/-- One observable GPIO side effect: a successful write of a payload to a
line path, or a sleep of some milliseconds. -/
inductive PulseEvent where
  | write (path : String) (value : String)
  | sleep (millis : Int)
deriving DecidableEq

/-- writeGPIO (main.go): empty path fails with no write; otherwise write
"1", sleep when duration > 0, write "0"; each write independently fallible
(flags ok1, ok2), short-circuiting on the first failure.  The returned
trace lists the successful side effects in order. -/
def writeGPIO (ok1 ok2 : Bool) (path : String) (duration : Int) :
    Except GPIOErr Unit × List PulseEvent :=
  if path = "" then (Except.error GPIOErr.CapabilityAbsent, [])
  else if ok1 = false then (Except.error GPIOErr.IOError, [])
  else
    let held := if duration > 0 then [PulseEvent.write path "1", PulseEvent.sleep duration]
                else [PulseEvent.write path "1"]
    if ok2 = false then (Except.error GPIOErr.IOError, held)
    else (Except.ok (), held ++ [PulseEvent.write path "0"])

/-- The payloads of the write events of a trace, in order. -/
def writtenValues (evs : List PulseEvent) : List String :=
  evs.filterMap fun e =>
    match e with
    | PulseEvent.write _ v => some v
    | PulseEvent.sleep _ => none

/-- getPowerState (main.go): read the power-LED line of the active profile;
0 means On, anything else Off; a read error is returned unchanged. -/
def getPowerState (fs : String → Option String) (hw : Hardware) : Except GPIOErr String :=
  match readGPIO fs hw.GPIOPowerLED with
  | Except.error e => Except.error e
  | Except.ok powerLED => if powerLED = 0 then Except.ok "On" else Except.ok "Off"

/-- performReset (main.go): 800 ms pulse on the reset line. -/
def performReset (ok1 ok2 : Bool) (hw : Hardware) : Except GPIOErr Unit × List PulseEvent :=
  writeGPIO ok1 ok2 hw.GPIOReset 800

/-- pressPowerButton (main.go): 800 ms pulse on the power line. -/
def pressPowerButton (ok1 ok2 : Bool) (hw : Hardware) : Except GPIOErr Unit × List PulseEvent :=
  writeGPIO ok1 ok2 hw.GPIOPower 800

/-- longPressPowerButton (main.go): 1000 ms pulse on the power line. -/
def longPressPowerButton (ok1 ok2 : Bool) (hw : Hardware) : Except GPIOErr Unit × List PulseEvent :=
  writeGPIO ok1 ok2 hw.GPIOPower 1000

/-- HTTP outcome of a handler, restricted to what the modelled handlers
produce after request decoding. -/
inductive HStatus where
  | noContent
  | badRequest (msg : String)
  | internalError (msg : String)
deriving DecidableEq

/-- The Go pattern powerState, _ := getPowerState(): on error the state
string is the zero value and the error is discarded (main.go, handleReset). -/
def powerStateOrEmpty (fs : String → Option String) (hw : Hardware) : String :=
  match getPowerState fs hw with
  | Except.error _ => ""
  | Except.ok s => s

/-- handleReset (main.go), from the decoded ResetRequest on (method check
and JSON decoding happen upstream): switch on ResetType, with the power
state re-read before each state-conditional action and its error discarded. -/
def handleReset (fs : String → Option String) (ok1 ok2 : Bool) (hw : Hardware)
    (resetType : String) : HStatus × List PulseEvent :=
  if resetType = "On" then
    let powerState := powerStateOrEmpty fs hw
    if powerState = "Off" then
      match pressPowerButton ok1 ok2 hw with
      | (Except.error _, evs) => (HStatus.internalError "Failed to power on", evs)
      | (Except.ok _, evs) => (HStatus.noContent, evs)
    else (HStatus.noContent, [])
  else if resetType = "ForceOff" then
    let powerState := powerStateOrEmpty fs hw
    if powerState = "On" then
      match longPressPowerButton ok1 ok2 hw with
      | (Except.error _, evs) => (HStatus.internalError "Failed to power off", evs)
      | (Except.ok _, evs) => (HStatus.noContent, evs)
    else (HStatus.noContent, [])
  else if resetType = "GracefulShutdown" then
    let powerState := powerStateOrEmpty fs hw
    if powerState = "On" then
      match pressPowerButton ok1 ok2 hw with
      | (Except.error _, evs) => (HStatus.internalError "Failed to shutdown", evs)
      | (Except.ok _, evs) => (HStatus.noContent, evs)
    else (HStatus.noContent, [])
  else if resetType = "ForceRestart" then
    match performReset ok1 ok2 hw with
    | (Except.error _, evs) => (HStatus.internalError "Failed to reset", evs)
    | (Except.ok _, evs) => (HStatus.noContent, evs)
  else (HStatus.badRequest ("Invalid ResetType: " ++ resetType), [])

/-- handleSystemPatch (main.go), from the decoded SystemPatchRequest on
(a request is an optional Boot object; JSON decoding leaves absent string
fields as the empty string).  Field updates happen in source order:
Enabled first, then Target (validated against the allow-list, returning
early on failure), then Mode. -/
def handleSystemPatch (cfg : Boot) (reqBoot : Option Boot) : HStatus × Boot :=
  match reqBoot with
  | none => (HStatus.noContent, cfg)
  | some b =>
    let cfg1 := if b.BootSourceOverrideEnabled ≠ "" then
        { cfg with BootSourceOverrideEnabled := b.BootSourceOverrideEnabled } else cfg
    if b.BootSourceOverrideTarget ≠ "" then
      if cfg1.BootSourceOverrideTargetAllowableValues.contains b.BootSourceOverrideTarget then
        let cfg2 := { cfg1 with BootSourceOverrideTarget := b.BootSourceOverrideTarget }
        let cfg3 := if b.BootSourceOverrideMode ≠ "" then
            { cfg2 with BootSourceOverrideMode := b.BootSourceOverrideMode } else cfg2
        (HStatus.noContent, cfg3)
      else (HStatus.badRequest "Invalid BootSourceOverrideTarget", cfg1)
    else
      let cfg3 := if b.BootSourceOverrideMode ≠ "" then
          { cfg1 with BootSourceOverrideMode := b.BootSourceOverrideMode } else cfg1
      (HStatus.noContent, cfg3)

/-- The boot config after a sequence of PATCH requests applied in order. -/
def applyPatches (cfg : Boot) (reqs : List (Option Boot)) : Boot :=
  reqs.foldl (fun c r => (handleSystemPatch c r).2) cfg

/-- A read oracle on which every read fails. -/
def unreadableFS : String → Option String := fun _ => none

/-- A read oracle on which every file contains "0". -/
def fsZero : String → Option String := fun _ => some "0"

/-- A read oracle on which every file contains "1". -/
def fsOne : String → Option String := fun _ => some "1"

/-- C6: detect trims surrounding whitespace and matches case-sensitively
against the three variant tags, returning the matching profile; any other
content fails with UnknownHardware, and an unreadable source fails with
ConfigUnreadable. -/
theorem detectHardwareFromFile_spec :
    detectHardwareFromFile none = Except.error DetectErr.ConfigUnreadable ∧
    (∀ s : String, trimSpace s = "alpha" → detectHardwareFromFile (some s) = Except.ok HWAlpha) ∧
    (∀ s : String, trimSpace s = "beta" → detectHardwareFromFile (some s) = Except.ok HWBeta) ∧
    (∀ s : String, trimSpace s = "pcie" → detectHardwareFromFile (some s) = Except.ok HWPcie) ∧
    (∀ s : String, trimSpace s ≠ "alpha" → trimSpace s ≠ "beta" → trimSpace s ≠ "pcie" →
      detectHardwareFromFile (some s) = Except.error (DetectErr.UnknownHardware (trimSpace s))) := by
  refine ⟨rfl, ?_, ?_, ?_, ?_⟩
  · intro s h; simp [detectHardwareFromFile, h]
  · intro s h; simp [detectHardwareFromFile, h]
  · intro s h; simp [detectHardwareFromFile, h]
  · intro s h1 h2 h3; simp [detectHardwareFromFile, h1, h2, h3]

/-- C6 witness: detect on " beta\n" yields the Beta profile, on "Beta"
(wrong case) and on unreadable input the stated errors. -/
theorem detectHardwareFromFile_spec_witness :
    detectHardwareFromFile (some " beta\n") = Except.ok HWBeta ∧
    detectHardwareFromFile (some "Beta") = Except.error (DetectErr.UnknownHardware "Beta") :=
  ⟨detectHardwareFromFile_spec.2.2.1 " beta\n" (by decide),
   detectHardwareFromFile_spec.2.2.2.2 "Beta" (by decide) (by decide) (by decide)⟩

/-- C4: getPowerState delegates to the GPIO read of the active profile's
power-LED line, maps value 0 to On and any non-zero value to Off, and
propagates a read error unchanged. -/
theorem getPowerState_spec :
    (∀ (fs : String → Option String) (hw : Hardware) (e : GPIOErr),
      readGPIO fs hw.GPIOPowerLED = Except.error e → getPowerState fs hw = Except.error e) ∧
    (∀ (fs : String → Option String) (hw : Hardware) (v : Int),
      readGPIO fs hw.GPIOPowerLED = Except.ok v →
        getPowerState fs hw = Except.ok (if v = 0 then "On" else "Off")) := by
  constructor
  · intro fs hw e h; simp [getPowerState, h]
  · intro fs hw v h; simp [getPowerState, h]; split <;> rfl

/-- C4 witness: LED reading 0 yields On; an unreadable LED line propagates
the IOError of the read. -/
theorem getPowerState_spec_witness :
    getPowerState fsZero HWAlpha = Except.ok "On" ∧
    getPowerState unreadableFS HWAlpha = Except.error GPIOErr.IOError :=
  ⟨by simpa using getPowerState_spec.2 fsZero HWAlpha 0 rfl,
   getPowerState_spec.1 unreadableFS HWAlpha GPIOErr.IOError rfl⟩

/-- C5: a pulse on an empty line reference fails with CapabilityAbsent and
no write; on a non-empty reference it writes 1, holds only when the
duration is positive, then writes 0, short-circuiting on the first failing
write; after every successful call the last written value is 0. -/
theorem writeGPIO_spec :
    (∀ (ok1 ok2 : Bool) (d : Int),
      writeGPIO ok1 ok2 "" d = (Except.error GPIOErr.CapabilityAbsent, [])) ∧
    (∀ (ok2 : Bool) (p : String) (d : Int), p ≠ "" →
      writeGPIO false ok2 p d = (Except.error GPIOErr.IOError, [])) ∧
    (∀ (p : String) (d : Int), p ≠ "" →
      writeGPIO true false p d =
        (Except.error GPIOErr.IOError,
          PulseEvent.write p "1" :: (if d > 0 then [PulseEvent.sleep d] else []))) ∧
    (∀ (ok1 ok2 : Bool) (p : String) (d : Int), p ≠ "" →
      ( writeGPIO ok1 ok2 p d).1 = Except.ok () →
        ( writeGPIO ok1 ok2 p d).2 =
          PulseEvent.write p "1" ::
            ((if d > 0 then [PulseEvent.sleep d] else []) ++ [PulseEvent.write p "0"])) ∧
    (∀ (ok1 ok2 : Bool) (p : String) (d : Int),
      ( writeGPIO ok1 ok2 p d).1 = Except.ok () →
        (writtenValues ( writeGPIO ok1 ok2 p d).2).getLast? = some "0") := by
  refine ⟨?_, ?_, ?_, ?_, ?_⟩
  · intro ok1 ok2 d; simp [ writeGPIO]
  · intro ok2 p d hp; simp [ writeGPIO, hp]
  · intro p d hp; simp [ writeGPIO, hp]; split <;> rfl
  · intro ok1 ok2 p d hp h
    cases ok1 <;> cases ok2 <;> simp [ writeGPIO, hp] at h ⊢
    split <;> simp
  · intro ok1 ok2 p d h
    by_cases hp : p = ""
    · simp [ writeGPIO, hp] at h
    · cases ok1 <;> cases ok2 <;> simp [ writeGPIO, hp] at h ⊢
      split <;> simp [writtenValues]

/-- C5 witness: a successful pulse of 5 ms on a concrete line yields the
assert-hold-release trace ending in value 0; the empty reference fails. -/
theorem writeGPIO_spec_witness :
    writeGPIO true true "" 5 = (Except.error GPIOErr.CapabilityAbsent, []) ∧
    ( writeGPIO true true "line" 5).2 =
      PulseEvent.write "line" "1" ::
        ((if (5 : Int) > 0 then [PulseEvent.sleep 5] else []) ++ [PulseEvent.write "line" "0"]) ∧
    (writtenValues ( writeGPIO true true "line" 5).2).getLast? = some "0" :=
  ⟨writeGPIO_spec.1 true true 5,
   writeGPIO_spec.2.2.2.1 true true "line" 5 (by decide) rfl,
   writeGPIO_spec.2.2.2.2 true true "line" 5 rfl⟩

/-- C9: the reset pulse holds for 800 ms on the reset line, the short
press for 800 ms on the power line, the long press for 1000 ms on the
power line; the long press exceeds the short press by exactly 200 ms. -/
theorem pulse_durations_spec :
    (∀ hw : Hardware, hw.GPIOReset ≠ "" → (performReset true true hw).2 =
      [PulseEvent.write hw.GPIOReset "1", PulseEvent.sleep 800,
       PulseEvent.write hw.GPIOReset "0"]) ∧
    (∀ hw : Hardware, hw.GPIOPower ≠ "" → (pressPowerButton true true hw).2 =
      [PulseEvent.write hw.GPIOPower "1", PulseEvent.sleep 800,
       PulseEvent.write hw.GPIOPower "0"]) ∧
    (∀ hw : Hardware, hw.GPIOPower ≠ "" → (longPressPowerButton true true hw).2 =
      [PulseEvent.write hw.GPIOPower "1", PulseEvent.sleep 1000,
       PulseEvent.write hw.GPIOPower "0"]) ∧
    (1000 : Int) = 800 + 200 := by
  refine ⟨?_, ?_, ?_, by norm_num⟩ <;> intro hw h <;>
    simp [performReset, pressPowerButton, longPressPowerButton, writeGPIO, h]

/-- C9 witness: the three pulse traces on the Alpha profile. -/
theorem pulse_durations_spec_witness :
    (performReset true true HWAlpha).2 =
      [PulseEvent.write HWAlpha.GPIOReset "1", PulseEvent.sleep 800,
       PulseEvent.write HWAlpha.GPIOReset "0"] ∧
    (longPressPowerButton true true HWAlpha).2 =
      [PulseEvent.write HWAlpha.GPIOPower "1", PulseEvent.sleep 1000,
       PulseEvent.write HWAlpha.GPIOPower "0"] :=
  ⟨pulse_durations_spec.1 HWAlpha (by decide),
   pulse_durations_spec.2.2.1 HWAlpha (by decide)⟩

/-- C8: any ResetType outside On, ForceOff, GracefulShutdown, ForceRestart
is rejected with the invalid-action error and produces zero line writes. -/
theorem handleReset_invalid_action :
    ∀ (fs : String → Option String) (ok1 ok2 : Bool) (hw : Hardware) (rt : String),
      rt ≠ "On" → rt ≠ "ForceOff" → rt ≠ "GracefulShutdown" → rt ≠ "ForceRestart" →
        handleReset fs ok1 ok2 hw rt =
          (HStatus.badRequest ("Invalid ResetType: " ++ rt), []) := by
  intro fs ok1 ok2 hw rt h1 h2 h3 h4
  simp [handleReset, h1, h2, h3, h4]

/-- C8 witness: dispatching "Sleep" is rejected with zero writes. -/
theorem handleReset_invalid_action_witness :
    handleReset unreadableFS true true HWAlpha "Sleep" =
      (HStatus.badRequest ("Invalid ResetType: " ++ "Sleep"), []) :=
  handleReset_invalid_action unreadableFS true true HWAlpha "Sleep"
    (by decide) (by decide) (by decide) (by decide)

/-- C7: PowerOn when the state reads On is a no-op success with zero
writes and when it reads Off performs exactly one short pulse on the power
line; ForceOff and GracefulShutdown are no-op successes when the state
reads Off; ForceRestart never reads the state (its result is independent
of the read oracle) and issues the reset pulse unconditionally. -/
theorem handleReset_state_conditional :
    (∀ (fs : String → Option String) (ok1 ok2 : Bool) (hw : Hardware),
      getPowerState fs hw = Except.ok "On" →
        handleReset fs ok1 ok2 hw "On" = (HStatus.noContent, [])) ∧
    (∀ (fs : String → Option String) (hw : Hardware),
      getPowerState fs hw = Except.ok "Off" → hw.GPIOPower ≠ "" →
        handleReset fs true true hw "On" =
          (HStatus.noContent,
           [PulseEvent.write hw.GPIOPower "1", PulseEvent.sleep 800,
            PulseEvent.write hw.GPIOPower "0"])) ∧
    (∀ (fs : String → Option String) (ok1 ok2 : Bool) (hw : Hardware),
      getPowerState fs hw = Except.ok "Off" →
        handleReset fs ok1 ok2 hw "ForceOff" = (HStatus.noContent, []) ∧
        handleReset fs ok1 ok2 hw "GracefulShutdown" = (HStatus.noContent, [])) ∧
    (∀ (fs fs2 : String → Option String) (ok1 ok2 : Bool) (hw : Hardware),
      handleReset fs ok1 ok2 hw "ForceRestart" = handleReset fs2 ok1 ok2 hw "ForceRestart") ∧
    (∀ (fs : String → Option String) (hw : Hardware), hw.GPIOReset ≠ "" →
      handleReset fs true true hw "ForceRestart" =
        (HStatus.noContent,
         [PulseEvent.write hw.GPIOReset "1", PulseEvent.sleep 800,
          PulseEvent.write hw.GPIOReset "0"])) := by
  refine ⟨?_, ?_, ?_, ?_, ?_⟩
  · intro fs ok1 ok2 hw h
    simp [handleReset, powerStateOrEmpty, h]
  · intro fs hw h hp
    simp [handleReset, powerStateOrEmpty, h, pressPowerButton, writeGPIO, hp]
  · intro fs ok1 ok2 hw h
    constructor <;> simp [handleReset, powerStateOrEmpty, h]
  · intro fs fs2 ok1 ok2 hw
    simp [handleReset]
  · intro fs hw hp
    simp [handleReset, performReset, writeGPIO, hp]

/-- C7 witness: with the LED line reading 1 (Off) on the Alpha profile,
PowerOn issues exactly one short pulse on the power line and ForceOff is a
no-op; with the LED reading 0 (On), PowerOn is a no-op. -/
theorem handleReset_state_conditional_witness :
    handleReset fsOne true true HWAlpha "On" =
      (HStatus.noContent,
       [PulseEvent.write HWAlpha.GPIOPower "1", PulseEvent.sleep 800,
        PulseEvent.write HWAlpha.GPIOPower "0"]) ∧
    (handleReset fsOne true true HWAlpha "ForceOff" = (HStatus.noContent, [])) ∧
    handleReset fsZero true true HWAlpha "On" = (HStatus.noContent, []) :=
  ⟨handleReset_state_conditional.2.1 fsOne HWAlpha rfl (by decide),
   (handleReset_state_conditional.2.2.1 fsOne true true HWAlpha rfl).1,
   handleReset_state_conditional.1 fsZero true true HWAlpha rfl⟩

/-- C2 counterexample: with every read failing, the power-state read
fails with IOError, yet dispatching PowerOn, ForceOff and GracefulShutdown
each reports success with zero writes instead of failing with the read
error. -/
theorem handleReset_discards_read_error :
    getPowerState unreadableFS HWAlpha = Except.error GPIOErr.IOError ∧
    handleReset unreadableFS true true HWAlpha "On" = (HStatus.noContent, []) ∧
    handleReset unreadableFS true true HWAlpha "ForceOff" = (HStatus.noContent, []) ∧
    handleReset unreadableFS true true HWAlpha "GracefulShutdown" = (HStatus.noContent, []) :=
  ⟨rfl, rfl, rfl, rfl⟩

/-- C2 amended: the dispatcher reads the power state immediately before
each state-conditional action but discards a read failure: the state then
compares unequal to both On and Off, so PowerOn, ForceOff and
GracefulShutdown all report success with zero writes. -/
theorem handleReset_read_error_noop :
    ∀ (fs : String → Option String) (hw : Hardware) (ok1 ok2 : Bool) (e : GPIOErr),
      getPowerState fs hw = Except.error e →
        handleReset fs ok1 ok2 hw "On" = (HStatus.noContent, []) ∧
        handleReset fs ok1 ok2 hw "ForceOff" = (HStatus.noContent, []) ∧
        handleReset fs ok1 ok2 hw "GracefulShutdown" = (HStatus.noContent, []) := by
  intro fs hw ok1 ok2 e h
  have hp : powerStateOrEmpty fs hw = "" := by simp [powerStateOrEmpty, h]
  refine ⟨?_, ?_, ?_⟩ <;> simp [handleReset, hp]

/-- C2 amended witness: the no-op successes under a failing LED read. -/
theorem handleReset_read_error_noop_witness :
    handleReset unreadableFS false false HWAlpha "ForceOff" = (HStatus.noContent, []) :=
  (handleReset_read_error_noop unreadableFS HWAlpha false false GPIOErr.IOError rfl).2.1

/-- The decoded PATCH body Boot object for {"Enabled": "Once", "Target":
"Bogus"} (fields absent from the JSON decode to the empty string). -/
def onceBogusPatch : Boot :=
  { BootSourceOverrideEnabled := "Once"
    BootSourceOverrideMode := ""
    BootSourceOverrideTarget := "Bogus"
    BootSourceOverrideTargetAllowableValues := [] }

/-- The decoded PATCH body Boot object for {"Target": "Pxe"}. -/
def pxePatch : Boot :=
  { BootSourceOverrideEnabled := ""
    BootSourceOverrideMode := ""
    BootSourceOverrideTarget := "Pxe"
    BootSourceOverrideTargetAllowableValues := [] }

/-- The decoded PATCH body Boot object with every field absent. -/
def emptyBootPatch : Boot :=
  { BootSourceOverrideEnabled := ""
    BootSourceOverrideMode := ""
    BootSourceOverrideTarget := ""
    BootSourceOverrideTargetAllowableValues := [] }

/-- C1 counterexample: a partial carrying both Enabled "Once" and the
invalid Target "Bogus" fails with the invalid-target error, yet the stored
Enabled has already been changed from "Disabled" to "Once" — the store is
not entirely unchanged. -/
theorem handleSystemPatch_not_atomic :
    currentBootConfig.BootSourceOverrideEnabled = "Disabled" ∧
    (handleSystemPatch currentBootConfig (some onceBogusPatch)).1 =
      HStatus.badRequest "Invalid BootSourceOverrideTarget" ∧
    (handleSystemPatch currentBootConfig (some onceBogusPatch)).2.BootSourceOverrideEnabled =
      "Once" :=
  ⟨rfl, rfl, rfl⟩

/-- C1 amended: Target, when present, is validated against
AllowableTargets before Target or Mode is mutated, and an invalid Target
fails with the invalid-target error leaving Target and Mode unchanged —
but the Enabled update happens before that validation, so an Enabled value
carried in the same partial is already applied when the call fails.  When
Target is present and allowed the call succeeds and updates exactly the
fields present in the partial, leaving absent fields and the allow-list
unchanged. -/
theorem handleSystemPatch_validation :
    (∀ (cfg b : Boot), b.BootSourceOverrideTarget ≠ "" →
      cfg.BootSourceOverrideTargetAllowableValues.contains b.BootSourceOverrideTarget = false →
        (handleSystemPatch cfg (some b)).1 =
          HStatus.badRequest "Invalid BootSourceOverrideTarget" ∧
        (handleSystemPatch cfg (some b)).2.BootSourceOverrideTarget =
          cfg.BootSourceOverrideTarget ∧
        (handleSystemPatch cfg (some b)).2.BootSourceOverrideMode =
          cfg.BootSourceOverrideMode ∧
        (handleSystemPatch cfg (some b)).2.BootSourceOverrideEnabled =
          (if b.BootSourceOverrideEnabled = "" then cfg.BootSourceOverrideEnabled
           else b.BootSourceOverrideEnabled)) ∧
    (∀ (cfg b : Boot), b.BootSourceOverrideTarget ≠ "" →
      cfg.BootSourceOverrideTargetAllowableValues.contains b.BootSourceOverrideTarget = true →
        (handleSystemPatch cfg (some b)).1 = HStatus.noContent ∧
        (handleSystemPatch cfg (some b)).2.BootSourceOverrideTarget =
          b.BootSourceOverrideTarget ∧
        (handleSystemPatch cfg (some b)).2.BootSourceOverrideEnabled =
          (if b.BootSourceOverrideEnabled = "" then cfg.BootSourceOverrideEnabled
           else b.BootSourceOverrideEnabled) ∧
        (handleSystemPatch cfg (some b)).2.BootSourceOverrideMode =
          (if b.BootSourceOverrideMode = "" then cfg.BootSourceOverrideMode
           else b.BootSourceOverrideMode) ∧
        (handleSystemPatch cfg (some b)).2.BootSourceOverrideTargetAllowableValues =
          cfg.BootSourceOverrideTargetAllowableValues) := by
  constructor
  · intro cfg b ht hv
    have hv2 : b.BootSourceOverrideTarget ∉
        cfg.BootSourceOverrideTargetAllowableValues := by simpa using hv
    by_cases he : b.BootSourceOverrideEnabled = "" <;>
      simp [handleSystemPatch, ht, hv2, he]
  · intro cfg b ht hv
    have hv2 : b.BootSourceOverrideTarget ∈
        cfg.BootSourceOverrideTargetAllowableValues := by simpa using hv
    by_cases he : b.BootSourceOverrideEnabled = "" <;>
      by_cases hm : b.BootSourceOverrideMode = "" <;>
        simp [handleSystemPatch, ht, hv2, he, hm]

/-- C1 amended witness: patching Target to the allowed value "Pxe"
succeeds and updates only Target; the invalid Target "Bogus" together with
Enabled "Once" fails while Mode stays "UEFI". -/
theorem handleSystemPatch_validation_witness :
    ((handleSystemPatch currentBootConfig (some pxePatch)).1 = HStatus.noContent ∧
     (handleSystemPatch currentBootConfig (some pxePatch)).2.BootSourceOverrideTarget = "Pxe") ∧
    (handleSystemPatch currentBootConfig (some onceBogusPatch)).2.BootSourceOverrideMode =
      currentBootConfig.BootSourceOverrideMode :=
  ⟨⟨(handleSystemPatch_validation.2 currentBootConfig pxePatch (by decide) (by decide)).1,
    (handleSystemPatch_validation.2 currentBootConfig pxePatch (by decide) (by decide)).2.1⟩,
   (handleSystemPatch_validation.1 currentBootConfig onceBogusPatch
      (by decide) (by decide)).2.2.1⟩

/-- Helper: no PATCH request ever changes the allow-list. -/
theorem handleSystemPatch_allowable_eq (cfg : Boot) (r : Option Boot) :
    (handleSystemPatch cfg r).2.BootSourceOverrideTargetAllowableValues =
      cfg.BootSourceOverrideTargetAllowableValues := by
  cases r with
  | none => rfl
  | some b =>
    simp only [handleSystemPatch]
    repeat' split
    all_goals rfl

/-- Helper: one PATCH request preserves membership of the stored Target in
the allow-list. -/
theorem handleSystemPatch_target_mem (cfg : Boot) (r : Option Boot)
    (h : cfg.BootSourceOverrideTarget ∈ cfg.BootSourceOverrideTargetAllowableValues) :
    (handleSystemPatch cfg r).2.BootSourceOverrideTarget ∈
      (handleSystemPatch cfg r).2.BootSourceOverrideTargetAllowableValues := by
  rw [handleSystemPatch_allowable_eq]
  cases r with
  | none => exact h
  | some b =>
    simp only [handleSystemPatch]
    repeat' split
    all_goals simp_all

/-- C3: starting from the default config, after any sequence of PATCH
requests the stored Target is an element of AllowableTargets, and
AllowableTargets equals its initial value. -/
theorem boot_invariant_reachable :
    ∀ reqs : List (Option Boot),
      (applyPatches currentBootConfig reqs).BootSourceOverrideTarget ∈
        (applyPatches currentBootConfig reqs).BootSourceOverrideTargetAllowableValues ∧
      (applyPatches currentBootConfig reqs).BootSourceOverrideTargetAllowableValues =
        currentBootConfig.BootSourceOverrideTargetAllowableValues := by
  have key : ∀ (reqs : List (Option Boot)) (cfg : Boot),
      cfg.BootSourceOverrideTarget ∈ cfg.BootSourceOverrideTargetAllowableValues →
      (applyPatches cfg reqs).BootSourceOverrideTarget ∈
        (applyPatches cfg reqs).BootSourceOverrideTargetAllowableValues ∧
      (applyPatches cfg reqs).BootSourceOverrideTargetAllowableValues =
        cfg.BootSourceOverrideTargetAllowableValues := by
    intro reqs
    induction reqs with
    | nil => intro cfg h; exact ⟨h, rfl⟩
    | cons r rs ih =>
      intro cfg h
      have h1 := handleSystemPatch_target_mem cfg r h
      have h2 := handleSystemPatch_allowable_eq cfg r
      have h3 := ih (handleSystemPatch cfg r).2 h1
      simp only [applyPatches, List.foldl] at h3 ⊢
      exact ⟨h3.1, h3.2.trans h2⟩
  intro reqs
  exact key reqs currentBootConfig (by decide)

/-- Helper: one PATCH request keeps the three stored fields non-empty. -/
theorem handleSystemPatch_fields_nonempty (cfg : Boot) (r : Option Boot)
    (h1 : cfg.BootSourceOverrideEnabled ≠ "") (h2 : cfg.BootSourceOverrideMode ≠ "")
    (h3 : cfg.BootSourceOverrideTarget ≠ "") :
    (handleSystemPatch cfg r).2.BootSourceOverrideEnabled ≠ "" ∧
    (handleSystemPatch cfg r).2.BootSourceOverrideMode ≠ "" ∧
    (handleSystemPatch cfg r).2.BootSourceOverrideTarget ≠ "" := by
  cases r with
  | none => exact ⟨h1, h2, h3⟩
  | some b =>
    simp only [handleSystemPatch]
    repeat' split
    all_goals simp_all

/-- C10: a PATCH with no Boot object succeeds and changes nothing; a field
given as the empty string is skipped (the stored field is unchanged) and
an empty Target never causes a rejection; hence starting from the default
config no sequence of patches ever makes Enabled, Mode or Target empty. -/
theorem empty_fields_treated_absent :
    (∀ cfg : Boot, handleSystemPatch cfg none = (HStatus.noContent, cfg)) ∧
    (∀ cfg b : Boot, b.BootSourceOverrideTarget = "" →
      (handleSystemPatch cfg (some b)).1 = HStatus.noContent) ∧
    (∀ cfg b : Boot, b.BootSourceOverrideEnabled = "" →
      (handleSystemPatch cfg (some b)).2.BootSourceOverrideEnabled =
        cfg.BootSourceOverrideEnabled) ∧
    (∀ cfg b : Boot, b.BootSourceOverrideMode = "" →
      (handleSystemPatch cfg (some b)).2.BootSourceOverrideMode =
        cfg.BootSourceOverrideMode) ∧
    (∀ cfg b : Boot, b.BootSourceOverrideTarget = "" →
      (handleSystemPatch cfg (some b)).2.BootSourceOverrideTarget =
        cfg.BootSourceOverrideTarget) ∧
    (∀ reqs : List (Option Boot),
      (applyPatches currentBootConfig reqs).BootSourceOverrideEnabled ≠ "" ∧
      (applyPatches currentBootConfig reqs).BootSourceOverrideMode ≠ "" ∧
      (applyPatches currentBootConfig reqs).BootSourceOverrideTarget ≠ "") := by
  have key : ∀ (reqs : List (Option Boot)) (cfg : Boot),
      cfg.BootSourceOverrideEnabled ≠ "" → cfg.BootSourceOverrideMode ≠ "" →
      cfg.BootSourceOverrideTarget ≠ "" →
      (applyPatches cfg reqs).BootSourceOverrideEnabled ≠ "" ∧
      (applyPatches cfg reqs).BootSourceOverrideMode ≠ "" ∧
      (applyPatches cfg reqs).BootSourceOverrideTarget ≠ "" := by
    intro reqs
    induction reqs with
    | nil => intro cfg h1 h2 h3; exact ⟨h1, h2, h3⟩
    | cons r rs ih =>
      intro cfg h1 h2 h3
      have hstep := handleSystemPatch_fields_nonempty cfg r h1 h2 h3
      have h4 := ih (handleSystemPatch cfg r).2 hstep.1 hstep.2.1 hstep.2.2
      simp only [applyPatches, List.foldl] at h4 ⊢
      exact h4
  refine ⟨?_, ?_, ?_, ?_, ?_, ?_⟩
  · intro cfg; rfl
  · intro cfg b ht
    by_cases he : b.BootSourceOverrideEnabled = "" <;>
      by_cases hm : b.BootSourceOverrideMode = "" <;>
        simp [handleSystemPatch, ht, he, hm]
  · intro cfg b he
    simp only [handleSystemPatch]
    repeat' split
    all_goals simp_all
  · intro cfg b hm
    simp only [handleSystemPatch]
    repeat' split
    all_goals simp_all
  · intro cfg b ht
    simp [handleSystemPatch, ht]
    repeat' split
    all_goals rfl
  · intro reqs
    exact key reqs currentBootConfig (by decide) (by decide) (by decide)

/-- C10 witness: a PATCH whose Boot object has every field empty succeeds
and leaves the default config's fields in place. -/
theorem empty_fields_treated_absent_witness :
    (handleSystemPatch currentBootConfig (some emptyBootPatch)).1 = HStatus.noContent ∧
    (handleSystemPatch currentBootConfig (some emptyBootPatch)).2.BootSourceOverrideTarget =
      currentBootConfig.BootSourceOverrideTarget ∧
    (handleSystemPatch currentBootConfig (some emptyBootPatch)).2.BootSourceOverrideEnabled =
      currentBootConfig.BootSourceOverrideEnabled :=
  ⟨empty_fields_treated_absent.2.1 currentBootConfig emptyBootPatch rfl,
   empty_fields_treated_absent.2.2.2.2.1 currentBootConfig emptyBootPatch rfl,
   empty_fields_treated_absent.2.2.1 currentBootConfig emptyBootPatch rfl⟩
